import Mathlib

/-!
Verification of the `type_description` crate (`src/lib.rs`).

The crate defines a schema value model (`TypeDescription`, `TypeKind`,
`TypeEnumKind`, `EnumVariantRepresentation`) and the capability trait
`AsTypeDescription`, implemented for the built-in scalar types and for the
three generic container shapes (`Option<T>`, `Vec<T>`,
`HashMap<String, V>` / `HashMap<PathBuf, V>`).

Embedding: the data model is translated verbatim (a Rust `&'static str`
becomes `String`, `Box<T>` is dropped since Lean inductives need no
indirection).  The set of types for which the crate itself implements the
capability is the inductive `Ty`; the per-type trait dispatch becomes the
recursive function `as_type_description : Ty → TypeDescription`, each match
arm being the body of the corresponding `impl` block.
-/

/-- The kind of enum tagging used by the `TypeKind` (src/lib.rs lines 66-72). -/
inductive TypeEnumKind where
  | Tagged (tag : String)
  | Untagged

mutual

/-- The specific kind a `TypeDescription` represents (src/lib.rs lines 75-129). -/
inductive TypeKind where
  | Bool
  | Integer
  | Float
  | String
  | Wrapped (inner : TypeDescription)
  | Array (inner : TypeDescription)
  | HashMap (inner : TypeDescription)
  | Struct (fields : List (String × Option String × TypeDescription))
  | Enum (tagging : TypeEnumKind)
      (variants : List (String × Option String × EnumVariantRepresentation))

/-- How an enum is represented (src/lib.rs lines 55-63). -/
inductive EnumVariantRepresentation where
  | String (tag : String)
  | Wrapped (inner : TypeDescription)

/-- Generic config that represents what kind of config a plugin wishes to
accept: `name`, `kind`, `doc` (src/lib.rs lines 14-19). -/
inductive TypeDescription where
  | mk (name : String) (kind : TypeKind) (doc : Option String)

end

/-- Get the config's name (src/lib.rs lines 49-51). -/
def TypeDescription.name : TypeDescription → String
  | .mk n _ _ => n

/-- Get a reference to the config's kind (src/lib.rs lines 36-38). -/
def TypeDescription.kind : TypeDescription → TypeKind
  | .mk _ k _ => k

/-- Get a reference to the config's documentation (src/lib.rs lines 30-32). -/
def TypeDescription.doc : TypeDescription → Option String
  | .mk _ _ d => d

/-- Construct a new generic config explanation (src/lib.rs lines 24-26). -/
def TypeDescription.new (name : String) (kind : TypeKind) (doc : Option String) :
    TypeDescription :=
  .mk name kind doc

/-- Set or replace the documentation of this `TypeDescription`
(src/lib.rs lines 42-45): the returned value keeps `name` and `kind`
and carries the given `doc`. -/
def TypeDescription.with_doc (t : TypeDescription) (doc : Option String) :
    TypeDescription :=
  .mk t.name t.kind doc

/-- The types for which the crate itself implements `AsTypeDescription`:
the 22 scalar impls generated by `impl_config_kind` (src/lib.rs lines
191-219) and the four generic container impls (src/lib.rs lines 139-177),
closed under nesting. -/
inductive Ty where
  | i8
  | i16
  | i32
  | i64
  | u8
  | u16
  | u32
  | u64
  | nonZeroI8
  | nonZeroI16
  | nonZeroI32
  | nonZeroI64
  | nonZeroU8
  | nonZeroU16
  | nonZeroU32
  | nonZeroU64
  | f32
  | f64
  | bool
  | string
  | socketAddr
  | socketAddrV4
  | socketAddrV6
  | option (t : Ty)
  | vec (t : Ty)
  | hashMapString (v : Ty)
  | hashMapPath (v : Ty)

/-- The capability `AsTypeDescription::as_type_description` (src/lib.rs
lines 134-219), one match arm per `impl` block:
container arms are lines 139-147 (`Option<T>`), 149-157 (`Vec<T>`),
159-167 (`HashMap<String, V>`), 169-177 (`HashMap<PathBuf, V>`);
scalar arms are the `impl_config_kind` invocations, lines 191-219. -/
def as_type_description : Ty → TypeDescription
  | .option t =>
      TypeDescription.new ("An optional '" ++ (as_type_description t).name ++ "'")
        (TypeKind.Wrapped (as_type_description t)) none
  | .vec t =>
      TypeDescription.new ("Array of '" ++ (as_type_description t).name ++ "'s")
        (TypeKind.Array (as_type_description t)) none
  | .hashMapString v =>
      TypeDescription.new ("Table of '" ++ (as_type_description v).name ++ "'s")
        (TypeKind.HashMap (as_type_description v)) none
  | .hashMapPath v =>
      TypeDescription.new ("Table of '" ++ (as_type_description v).name ++ "'s")
        (TypeKind.HashMap (as_type_description v)) none
  | .i64 => TypeDescription.new "Integer" TypeKind.Integer
      (some "A signed integer with 64 bits")
  | .nonZeroI64 => TypeDescription.new "Integer" TypeKind.Integer
      (some "A signed integer with 64 bits that cannot be zero")
  | .u64 => TypeDescription.new "Integer" TypeKind.Integer
      (some "An unsigned integer with 64 bits")
  | .nonZeroU64 => TypeDescription.new "Integer" TypeKind.Integer
      (some "An unsigned integer with 64 bits that cannot be zero")
  | .i32 => TypeDescription.new "Integer" TypeKind.Integer
      (some "A signed integer with 32 bits")
  | .nonZeroI32 => TypeDescription.new "Integer" TypeKind.Integer
      (some "A signed integer with 32 bits that cannot be zero")
  | .u32 => TypeDescription.new "Integer" TypeKind.Integer
      (some "An unsigned integer with 32 bits")
  | .nonZeroU32 => TypeDescription.new "Integer" TypeKind.Integer
      (some "An unsigned integer with 32 bits that cannot be zero")
  | .i16 => TypeDescription.new "Integer" TypeKind.Integer
      (some "A signed integer with 16 bits")
  | .nonZeroI16 => TypeDescription.new "Integer" TypeKind.Integer
      (some "A signed integer with 16 bits that cannot be zero")
  | .u16 => TypeDescription.new "Integer" TypeKind.Integer
      (some "An unsigned integer with 16 bits")
  | .nonZeroU16 => TypeDescription.new "Integer" TypeKind.Integer
      (some "An unsigned integer with 16 bits that cannot be zero")
  | .i8 => TypeDescription.new "Integer" TypeKind.Integer
      (some "A signed integer with 8 bits")
  | .nonZeroI8 => TypeDescription.new "Integer" TypeKind.Integer
      (some "A signed integer with 8 bits that cannot be zero")
  | .u8 => TypeDescription.new "Integer" TypeKind.Integer
      (some "An unsigned integer with 8 bits")
  | .nonZeroU8 => TypeDescription.new "Integer" TypeKind.Integer
      (some "An unsigned integer with 8 bits that cannot be zero")
  | .f64 => TypeDescription.new "Float" TypeKind.Float
      (some "A floating point value with 64 bits")
  | .f32 => TypeDescription.new "Float" TypeKind.Float
      (some "A floating point value with 32 bits")
  | .bool => TypeDescription.new "Boolean" TypeKind.Bool
      (some "A boolean")
  | .string => TypeDescription.new "String" TypeKind.String
      (some "An UTF-8 string")
  | .socketAddr => TypeDescription.new "String" TypeKind.String
      (some "A socket address")
  | .socketAddrV4 => TypeDescription.new "String" TypeKind.String
      (some "An IPv4 socket address")
  | .socketAddrV6 => TypeDescription.new "String" TypeKind.String
      (some "An IPv6 socket address")


/-- Structural equality on `TypeEnumKind`, mirroring the derived `PartialEq`
(src/lib.rs line 66). -/
def beqTypeEnumKind : TypeEnumKind → TypeEnumKind → Bool
  | .Tagged a, .Tagged b => a == b
  | .Untagged, .Untagged => true
  | _, _ => false

mutual

/-- Structural equality on `TypeDescription`, mirroring the derived
`PartialEq` (src/lib.rs line 14): field-wise comparison of `name`, `kind`
and `doc`. -/
def beqTypeDescription : TypeDescription → TypeDescription → Bool
  | .mk n1 k1 d1, .mk n2 k2 d2 => n1 == n2 && beqTypeKind k1 k2 && d1 == d2

/-- Structural equality on `TypeKind`, mirroring the derived `PartialEq`
(src/lib.rs line 75). -/
def beqTypeKind : TypeKind → TypeKind → Bool
  | .Bool, .Bool => true
  | .Integer, .Integer => true
  | .Float, .Float => true
  | .String, .String => true
  | .Wrapped a, .Wrapped b => beqTypeDescription a b
  | .Array a, .Array b => beqTypeDescription a b
  | .HashMap a, .HashMap b => beqTypeDescription a b
  | .Struct fs, .Struct gs => beqStructFields fs gs
  | .Enum ka va, .Enum kb vb => beqTypeEnumKind ka kb && beqEnumVariants va vb
  | _, _ => false

/-- Structural equality on `EnumVariantRepresentation`, mirroring the
derived `PartialEq` (src/lib.rs line 55). -/
def beqEnumVariantRepresentation : EnumVariantRepresentation → EnumVariantRepresentation → Bool
  | .String a, .String b => a == b
  | .Wrapped a, .Wrapped b => beqTypeDescription a b
  | _, _ => false

/-- Element-wise structural equality of `Struct` field lists. -/
def beqStructFields :
    List (String × Option String × TypeDescription) →
    List (String × Option String × TypeDescription) → Bool
  | [], [] => true
  | (n1, d1, t1) :: xs, (n2, d2, t2) :: ys =>
      n1 == n2 && d1 == d2 && beqTypeDescription t1 t2 && beqStructFields xs ys
  | _, _ => false

/-- Element-wise structural equality of `Enum` variant lists. -/
def beqEnumVariants :
    List (String × Option String × EnumVariantRepresentation) →
    List (String × Option String × EnumVariantRepresentation) → Bool
  | [], [] => true
  | (n1, d1, r1) :: xs, (n2, d2, r2) :: ys =>
      n1 == n2 && d1 == d2 && beqEnumVariantRepresentation r1 r2 && beqEnumVariants xs ys
  | _, _ => false

end

/-- Whether a `Ty` is one of the 22 built-in scalar types (an
`impl_config_kind` entry, src/lib.rs lines 191-219) as opposed to one of
the four generic container shapes (src/lib.rs lines 139-177). -/
def isScalar : Ty → Bool
  | .option _ => false
  | .vec _ => false
  | .hashMapString _ => false
  | .hashMapPath _ => false
  | _ => true

/-- Computation lemma: the name of a freshly constructed description is the
name it was given. -/
theorem name_new (n : String) (k : TypeKind) (d : Option String) :
    (TypeDescription.new n k d).name = n := rfl

/-- Wherever the scalar registry maps the type `t` to kind `k`, name `n`
and documentation `d`: the three accessor-level facts one row of the
registry table states. -/
def scalarEntry (t : Ty) (k : TypeKind) (n d : String) : Prop :=
  (as_type_description t).kind = k ∧ (as_type_description t).name = n ∧
    (as_type_description t).doc = some d

/-- C1: every built-in scalar type's description has exactly the kind given
by the registry table (Integer for all integer widths and their non-zero
variants, Float for f32/f64, Bool for bool, String for text and all three
socket-address forms), a fixed constant name, and a fixed constant
documentation string; each non-zero variant keeps kind Integer but its
documentation contains "cannot be zero". -/
theorem scalar_registry_matches_table :
    scalarEntry Ty.i8 TypeKind.Integer "Integer" "A signed integer with 8 bits" ∧
    scalarEntry Ty.i16 TypeKind.Integer "Integer" "A signed integer with 16 bits" ∧
    scalarEntry Ty.i32 TypeKind.Integer "Integer" "A signed integer with 32 bits" ∧
    scalarEntry Ty.i64 TypeKind.Integer "Integer" "A signed integer with 64 bits" ∧
    scalarEntry Ty.u8 TypeKind.Integer "Integer" "An unsigned integer with 8 bits" ∧
    scalarEntry Ty.u16 TypeKind.Integer "Integer" "An unsigned integer with 16 bits" ∧
    scalarEntry Ty.u32 TypeKind.Integer "Integer" "An unsigned integer with 32 bits" ∧
    scalarEntry Ty.u64 TypeKind.Integer "Integer" "An unsigned integer with 64 bits" ∧
    scalarEntry Ty.nonZeroI8 TypeKind.Integer "Integer"
      "A signed integer with 8 bits that cannot be zero" ∧
    scalarEntry Ty.nonZeroI16 TypeKind.Integer "Integer"
      "A signed integer with 16 bits that cannot be zero" ∧
    scalarEntry Ty.nonZeroI32 TypeKind.Integer "Integer"
      "A signed integer with 32 bits that cannot be zero" ∧
    scalarEntry Ty.nonZeroI64 TypeKind.Integer "Integer"
      "A signed integer with 64 bits that cannot be zero" ∧
    scalarEntry Ty.nonZeroU8 TypeKind.Integer "Integer"
      "An unsigned integer with 8 bits that cannot be zero" ∧
    scalarEntry Ty.nonZeroU16 TypeKind.Integer "Integer"
      "An unsigned integer with 16 bits that cannot be zero" ∧
    scalarEntry Ty.nonZeroU32 TypeKind.Integer "Integer"
      "An unsigned integer with 32 bits that cannot be zero" ∧
    scalarEntry Ty.nonZeroU64 TypeKind.Integer "Integer"
      "An unsigned integer with 64 bits that cannot be zero" ∧
    scalarEntry Ty.f32 TypeKind.Float "Float" "A floating point value with 32 bits" ∧
    scalarEntry Ty.f64 TypeKind.Float "Float" "A floating point value with 64 bits" ∧
    scalarEntry Ty.bool TypeKind.Bool "Boolean" "A boolean" ∧
    scalarEntry Ty.string TypeKind.String "String" "An UTF-8 string" ∧
    scalarEntry Ty.socketAddr TypeKind.String "String" "A socket address" ∧
    scalarEntry Ty.socketAddrV4 TypeKind.String "String" "An IPv4 socket address" ∧
    scalarEntry Ty.socketAddrV6 TypeKind.String "String" "An IPv6 socket address" ∧
    (∃ a b, (as_type_description Ty.nonZeroI8).doc = some (a ++ "cannot be zero" ++ b)) ∧
    (∃ a b, (as_type_description Ty.nonZeroI16).doc = some (a ++ "cannot be zero" ++ b)) ∧
    (∃ a b, (as_type_description Ty.nonZeroI32).doc = some (a ++ "cannot be zero" ++ b)) ∧
    (∃ a b, (as_type_description Ty.nonZeroI64).doc = some (a ++ "cannot be zero" ++ b)) ∧
    (∃ a b, (as_type_description Ty.nonZeroU8).doc = some (a ++ "cannot be zero" ++ b)) ∧
    (∃ a b, (as_type_description Ty.nonZeroU16).doc = some (a ++ "cannot be zero" ++ b)) ∧
    (∃ a b, (as_type_description Ty.nonZeroU32).doc = some (a ++ "cannot be zero" ++ b)) ∧
    (∃ a b, (as_type_description Ty.nonZeroU64).doc = some (a ++ "cannot be zero" ++ b)) :=
  ⟨⟨rfl, rfl, rfl⟩, ⟨rfl, rfl, rfl⟩, ⟨rfl, rfl, rfl⟩, ⟨rfl, rfl, rfl⟩,
   ⟨rfl, rfl, rfl⟩, ⟨rfl, rfl, rfl⟩, ⟨rfl, rfl, rfl⟩, ⟨rfl, rfl, rfl⟩,
   ⟨rfl, rfl, rfl⟩, ⟨rfl, rfl, rfl⟩, ⟨rfl, rfl, rfl⟩, ⟨rfl, rfl, rfl⟩,
   ⟨rfl, rfl, rfl⟩, ⟨rfl, rfl, rfl⟩, ⟨rfl, rfl, rfl⟩, ⟨rfl, rfl, rfl⟩,
   ⟨rfl, rfl, rfl⟩, ⟨rfl, rfl, rfl⟩, ⟨rfl, rfl, rfl⟩, ⟨rfl, rfl, rfl⟩,
   ⟨rfl, rfl, rfl⟩, ⟨rfl, rfl, rfl⟩, ⟨rfl, rfl, rfl⟩,
   ⟨"A signed integer with 8 bits that ", "", rfl⟩,
   ⟨"A signed integer with 16 bits that ", "", rfl⟩,
   ⟨"A signed integer with 32 bits that ", "", rfl⟩,
   ⟨"A signed integer with 64 bits that ", "", rfl⟩,
   ⟨"An unsigned integer with 8 bits that ", "", rfl⟩,
   ⟨"An unsigned integer with 16 bits that ", "", rfl⟩,
   ⟨"An unsigned integer with 32 bits that ", "", rfl⟩,
   ⟨"An unsigned integer with 64 bits that ", "", rfl⟩⟩

/-- C2: for every inner type `t`, `Option<t>`'s description has kind
`Wrapped` of `t`'s own description, name "An optional '<t's name>'", and
no documentation regardless of `t`'s own documentation. -/
theorem option_description_wraps_inner (t : Ty) :
    (as_type_description (Ty.option t)).kind = TypeKind.Wrapped (as_type_description t) ∧
    (as_type_description (Ty.option t)).name
        = "An optional '" ++ (as_type_description t).name ++ "'" ∧
    (as_type_description (Ty.option t)).doc = none :=
  ⟨rfl, rfl, rfl⟩

/-- C3: for every inner type `t`, `Vec<t>`'s description has kind `Array`
of `t`'s own description and name "Array of '<t's name>'s"; in particular
`Vec<f64>`'s description is an `Array` whose payload has kind `Float`. -/
theorem vec_description_array_of_inner :
    (∀ t : Ty,
      (as_type_description (Ty.vec t)).kind = TypeKind.Array (as_type_description t) ∧
      (as_type_description (Ty.vec t)).name
          = "Array of '" ++ (as_type_description t).name ++ "'s") ∧
    ∃ inner, (as_type_description (Ty.vec Ty.f64)).kind = TypeKind.Array inner ∧
      inner.kind = TypeKind.Float :=
  ⟨fun _ => ⟨rfl, rfl⟩, as_type_description Ty.f64, rfl, rfl⟩

/-- C4: for every value type `v`, `HashMap<String, v>` and
`HashMap<PathBuf, v>` produce structurally identical descriptions; both
have kind `HashMap` of `v`'s description and name "Table of '<v's name>'s". -/
theorem hashmap_string_path_descriptions_identical (v : Ty) :
    as_type_description (Ty.hashMapString v) = as_type_description (Ty.hashMapPath v) ∧
    (as_type_description (Ty.hashMapString v)).kind
        = TypeKind.HashMap (as_type_description v) ∧
    (as_type_description (Ty.hashMapPath v)).kind
        = TypeKind.HashMap (as_type_description v) ∧
    (as_type_description (Ty.hashMapString v)).name
        = "Table of '" ++ (as_type_description v).name ++ "'s" :=
  ⟨rfl, rfl, rfl, rfl⟩

/-- C5: `HashMap<String, Vec<HashMap<String, String>>>`'s description,
destructured level by level, has kinds HashMap(Array(HashMap(String))),
and each level's name interpolates the next level's name into its fixed
template. -/
theorem nested_map_vec_map_composition :
    ∃ d1 d2 d3,
      (as_type_description (Ty.hashMapString (Ty.vec (Ty.hashMapString Ty.string)))).kind
          = TypeKind.HashMap d1 ∧
      d1.kind = TypeKind.Array d2 ∧
      d2.kind = TypeKind.HashMap d3 ∧
      d3.kind = TypeKind.String ∧
      (as_type_description (Ty.hashMapString (Ty.vec (Ty.hashMapString Ty.string)))).name
          = "Table of '" ++ d1.name ++ "'s" ∧
      d1.name = "Array of '" ++ d2.name ++ "'s" ∧
      d2.name = "Table of '" ++ d3.name ++ "'s" ∧
      d3.name = "String" :=
  ⟨as_type_description (Ty.vec (Ty.hashMapString Ty.string)),
   as_type_description (Ty.hashMapString Ty.string),
   as_type_description Ty.string,
   rfl, rfl, rfl, rfl, rfl, rfl, rfl, rfl⟩

/-- C6: the capability is deterministic and stateless: two calls on the
same type return the same tree, and the two trees are structurally equal
in the sense of the derived `PartialEq` comparison. -/
theorem as_type_description_deterministic (t : Ty) :
    as_type_description t = as_type_description t ∧
      beqTypeDescription (as_type_description t) (as_type_description t) = true := by
  refine ⟨rfl, ?_⟩
  induction t <;>
    simp [as_type_description, TypeDescription.new, beqTypeDescription, beqTypeKind] <;>
    assumption

/-- C7: `with_doc` replaces exactly the `doc` field: the result's `doc` is
the given value while `name` and `kind` are those of the input. -/
theorem with_doc_replaces_only_doc (t : TypeDescription) (d : Option String) :
    (t.with_doc d).doc = d ∧ (t.with_doc d).name = t.name ∧
      (t.with_doc d).kind = t.kind :=
  ⟨rfl, rfl, rfl⟩

/-- C8 counterexample: `TypeDescription::new` performs no validation, so
the data model does offer an operation producing a description with an
empty name. -/
theorem new_accepts_empty_name :
    (TypeDescription.new "" TypeKind.Bool none).name = "" := rfl

/-- C8 amended: every description produced by the crate's own capability
implementations has a non-empty name (fixed for scalars, synthesized for
composites); the unvalidated constructor is excluded. -/
theorem capability_descriptions_have_nonempty_name (t : Ty) :
    0 < (as_type_description t).name.length := by
  induction t <;>
    first
      | decide
      | (simp only [as_type_description, name_new, String.length_append]
         omega)

/-- C9: descriptions produced by the crate's own capability implementations
carry documentation exactly when they are scalar leaves: every container
rule sets `doc` to none even over a documented inner type, and every scalar
has `doc` equal to some non-empty constant string. -/
theorem doc_present_exactly_on_scalars (t : Ty) :
    Option.all (fun s => !s.isEmpty) (as_type_description t).doc = true ∧
      (as_type_description t).doc.isSome = isScalar t := by
  cases t <;> exact ⟨rfl, rfl⟩

/-- C10: constructor and accessors round-trip exactly, and `with_doc`
always installs the given doc, even `none`, with a later `with_doc`
overwriting an earlier one. -/
theorem new_accessors_roundtrip_and_with_doc_overwrites :
    (∀ (n : String) (k : TypeKind) (d : Option String),
      (TypeDescription.new n k d).name = n ∧ (TypeDescription.new n k d).kind = k ∧
        (TypeDescription.new n k d).doc = d) ∧
    ∀ (t : TypeDescription) (d1 d2 : Option String),
      (t.with_doc d1).doc = d1 ∧ ((t.with_doc d1).with_doc d2).doc = d2 ∧
        (t.with_doc none).doc = none :=
  ⟨fun _ _ _ => ⟨rfl, rfl, rfl⟩, fun _ _ _ => ⟨rfl, rfl, rfl⟩⟩
